import Mathlib

/-!
Verification of the queue / resource-lifetime engine of wgpu-core.

The definitions below are a shallow embedding of `wgpu-core/src/lib.rs`
(`RefCount`, `LifeGuard`) and `wgpu-core/src/device/queue.rs`
(`queue_write_buffer`, `queue_write_texture` staging copy, `queue_submit`
submission assembly, `get_lowest_common_denom`, `get_greatest_common_divisor`,
`align_to`).  Machine integers are modelled as `Nat`; a Rust value that can
fail at run time (an assertion failure or a division by zero) is modelled as
an `Option`/`Except` with `none`/`error` standing for the failing execution.
-/

namespace WgpuCore

/-- Modelled from the spec: `wgt::COPY_BUFFER_ALIGNMENT`, the platform
copy-alignment constant for buffer writes.  The constant lives in the `wgt`
(wgpu-types) crate, outside the reviewed sources; the spec fixes it at 4
("offset=3 (misaligned, alignment=4)"). -/
def COPY_BUFFER_ALIGNMENT : Nat := 4

/-- `RefCount::MAX` from `wgpu-core/src/lib.rs`: `1 << 24`. -/
def RefCountMAX : Nat := 1 <<< 24

/-- `RefCount::clone` (`wgpu-core/src/lib.rs` lines 98-104): the atomic
`fetch_add(1, AcqRel)` returns the old count, after which
`assert!(old_size < Self::MAX)` runs.  The result is the new counter value
together with `some ()` when the assertion passes (a new reference is
returned) or `none` when the assertion fails (the clone aborts instead of
returning a reference; the increment has already happened). -/
def refCountClone (count : Nat) : Nat × Option Unit :=
  let old_size := count
  (count + 1, if old_size < RefCountMAX then some () else none)

/-- `LifeGuard` (`wgpu-core/src/lib.rs` lines 166-170): an optional `RefCount`
(modelled by a presence flag) paired with the atomically stored
`submission_index`. -/
structure LifeGuard where
  refCountPresent : Bool
  submissionIndex : Nat
deriving DecidableEq

/-- `LifeGuard::use_at` (`wgpu-core/src/lib.rs` lines 186-189): a plain
`store(submit_index, Release)` of the argument, returning whether the
`ref_count` is still present. -/
def LifeGuard.use_at (lg : LifeGuard) (k : Nat) : LifeGuard × Bool :=
  ({ lg with submissionIndex := k }, lg.refCountPresent)

/-- Fuel-indexed body of the Euclidean `loop` in `get_greatest_common_divisor`
(`wgpu-core/src/device/queue.rs` lines 638-649).  `none` models a run-time
failure: the division by zero of `a % b` when `b = 0`, or fuel exhaustion
(shown unreachable below: `b` strictly decreases every iteration, so fuel `b`
always suffices). -/
def gcdAux : Nat → Nat → Nat → Option Nat
  | 0, _, _ => none
  | fuel + 1, a, b =>
    if b = 0 then none
    else
      let c := a % b
      if c = 0 then some b else gcdAux fuel b c

/-- `get_greatest_common_divisor(a, b)`: `assert!(a >= b)` (the `none` branch
models the assertion failure), then the Euclidean loop. -/
def get_greatest_common_divisor (a b : Nat) : Option Nat :=
  if b ≤ a then gcdAux b a b else none

/-- `get_lowest_common_denom(a, b)` (`queue.rs` lines 629-636): compute the gcd
with the larger argument first, then `a * b / gcd`. -/
def get_lowest_common_denom (a b : Nat) : Option Nat :=
  (if b ≤ a then get_greatest_common_divisor a b
   else get_greatest_common_divisor b a).map (fun gcd => a * b / gcd)

/-- `align_to(value, alignment)` (`queue.rs` lines 651-656). -/
def align_to (value alignment : Nat) : Nat :=
  match value % alignment with
  | 0 => value
  | other => value - other + alignment

/-! ## The buffer write path (`Global::queue_write_buffer`) -/

/-- Modelled from the spec: the tracker's per-resource usage states
(`BufferUse` in `wgpu-core/src/resource.rs`, which is not part of the
reviewed sources).  Only the distinctions the queue path needs are kept. -/
inductive BufferUseState
  | empty
  | copySrc
  | copyDst
  | mapRead
  | mapWrite
  | shaderRead
deriving DecidableEq

/-- The destination buffer's static description: whether it was created with
`wgt::BufferUsage::COPY_DST`, and its size in bytes. -/
structure Buffer where
  usageCopyDst : Bool
  size : Nat
deriving DecidableEq

/-- The `TransferError` variants produced by `queue_write_buffer`
(`wgpu-core/src/command/transfer.rs`, variants as used in `queue.rs`). -/
inductive TransferError
  | InvalidBuffer
  | MissingCopyDstUsageFlag
  | UnalignedCopySize (size : Nat)
  | UnalignedBufferOffset (offset : Nat)
  | BufferOverrun (start_offset end_offset buffer_size : Nat)
deriving DecidableEq

instance : DecidableEq (Except TransferError Unit) := fun x y =>
  match x, y with
  | Except.ok a, Except.ok b =>
    if h : a = b then isTrue (by rw [h]) else isFalse (by intro hc; cases hc; exact h rfl)
  | Except.error a, Except.error b =>
    if h : a = b then isTrue (by rw [h]) else isFalse (by intro hc; cases hc; exact h rfl)
  | Except.ok _, Except.error _ => isFalse (by intro hc; cases hc)
  | Except.error _, Except.ok _ => isFalse (by intro hc; cases hc)

/-- The device state observable by `queue_write_buffer`, for one destination
buffer: the active submission index, the open `pending_writes` command buffer
(modelled by its number of recorded commands), the length of
`pending_writes.temp_buffers`, the number of staging buffers ever created by
`prepare_stage`, the tracker entry for the destination, and the
destination's `life_guard.submission_index`. -/
structure DeviceState where
  activeSubmissionIndex : Nat
  pendingCommandBuffer : Option Nat
  tempBuffers : Nat
  stagingAllocated : Nat
  trackerUse : BufferUseState
  dstLastUse : Nat
deriving DecidableEq

/-- `Global::queue_write_buffer` (`queue.rs` lines 157-260), for an already
resolved destination buffer, with allocation always succeeding.  The order of
operations follows the source: the zero-size early return, `prepare_stage`
(which creates a staging buffer and takes the open pending-writes command
buffer), the tracker's `use_replace(..., BufferUse::COPY_DST)`, the
`COPY_DST` usage-flag check, `life_guard.use_at(active_submission_index + 1)`,
the copy-size alignment check, the offset alignment check, the overrun check,
and finally recording the copy and `pending_writes.consume(stage)`. -/
def queue_write_buffer (st : DeviceState) (buf : Buffer) (buffer_offset : Nat)
    (data : List Nat) : Except TransferError Unit × DeviceState :=
  let data_size := data.length
  if data_size = 0 then
    (Except.ok (), st)
  else
    let stageCmds := st.pendingCommandBuffer.getD 0
    let st1 : DeviceState :=
      { st with
        stagingAllocated := st.stagingAllocated + 1
        pendingCommandBuffer := none }
    let st2 : DeviceState := { st1 with trackerUse := BufferUseState.copyDst }
    if buf.usageCopyDst = false then
      (Except.error TransferError.MissingCopyDstUsageFlag, st2)
    else
      let st3 : DeviceState := { st2 with dstLastUse := st2.activeSubmissionIndex + 1 }
      if data_size % COPY_BUFFER_ALIGNMENT ≠ 0 then
        (Except.error (TransferError.UnalignedCopySize data_size), st3)
      else if buffer_offset % COPY_BUFFER_ALIGNMENT ≠ 0 then
        (Except.error (TransferError.UnalignedBufferOffset buffer_offset), st3)
      else if buf.size < buffer_offset + data_size then
        (Except.error
          (TransferError.BufferOverrun buffer_offset (buffer_offset + data_size) buf.size), st3)
      else
        (Except.ok (),
         { st3 with
           pendingCommandBuffer := some (stageCmds + 2)
           tempBuffers := st3.tempBuffers + 1 })

/-- `wgt::Extent3d`. -/
structure Extent3d where
  width : Nat
  height : Nat
  depth : Nat
deriving DecidableEq

/-- The zero-size early-return test of `queue_write_texture` (`queue.rs` line
297), translated verbatim:
`size.width == 0 || size.height == 0 || size.width == 0` — the third disjunct
repeats `width`; `depth` is never tested. -/
def write_texture_size_zero_check (size : Extent3d) : Bool :=
  size.width == 0 || size.height == 0 || size.width == 0

/-- Example device state used by the concrete evaluations below. -/
def devInit : DeviceState :=
  { activeSubmissionIndex := 0
    pendingCommandBuffer := none
    tempBuffers := 0
    stagingAllocated := 0
    trackerUse := BufferUseState.empty
    dstLastUse := 0 }

/-- A 64-byte destination buffer created with `COPY_DST`. -/
def bufOk : Buffer := { usageCopyDst := true, size := 64 }

/-- A 64-byte destination buffer created without `COPY_DST`. -/
def bufNoCopyDst : Buffer := { usageCopyDst := false, size := 64 }

end WgpuCore

namespace WgpuCore

/-! ## Theorems for claims C3, C9 -/

/-- C3 (amended): `LifeGuard::use_at` stores its argument unconditionally, so
the recorded last-use submission index after `use_at k` followed by
`use_at k'` is `k'` — the last call wins, not the maximum observed index.
Monotonicity therefore holds only when callers supply non-decreasing
indices. -/
theorem C3_use_at_last_write_wins (lg : LifeGuard) (k k' : Nat) :
    (((lg.use_at k).1).use_at k').1.submissionIndex = k' := rfl

/-- C3 counterexample: calling `use_at 5` and then `use_at 3` leaves the
stored index at 3, not at the maximum observed index 5, refuting the claim
that the recorded last-use index is monotonically non-decreasing. -/
theorem C3_counterexample :
    (((LifeGuard.mk true 0).use_at 5).1.use_at 3).1.submissionIndex = 3 ∧
    ¬ (((LifeGuard.mk true 0).use_at 5).1.use_at 3).1.submissionIndex = max 5 3 := by
  decide

/-- C9 (confirmed): `RefCount::clone` returns a new reference exactly when the
old count is strictly below `RefCount::MAX = 2^24`, and the shared counter is
incremented by one (the `fetch_add` happens before the assertion, so the
increment occurs even on the failing path, which aborts instead of returning
a reference). -/
theorem C9_refcount_clone_limit (c : Nat) :
    ((refCountClone c).2 = some () ↔ c < 2 ^ 24) ∧
    (refCountClone c).1 = c + 1 ∧
    RefCountMAX = 2 ^ 24 := by
  refine ⟨?_, rfl, by decide⟩
  unfold refCountClone RefCountMAX
  by_cases h : c < 1 <<< 24
  · simp only [if_pos h]
    constructor
    · intro _
      have : (1 : Nat) <<< 24 = 2 ^ 24 := by decide
      omega
    · intro _; trivial
  · simp only [if_neg h]
    constructor
    · intro hc; exact absurd hc (by simp)
    · intro hc
      have : (1 : Nat) <<< 24 = 2 ^ 24 := by decide
      omega

end WgpuCore

namespace WgpuCore

/-! ## The gcd / lcm helpers (claims C6, C10) -/

/-- The Euclidean loop computes `Nat.gcd`: fuel `b` suffices because the
second argument strictly decreases. -/
theorem gcdAux_eq : ∀ (fuel a b : Nat), 0 < b → b ≤ fuel →
    gcdAux fuel a b = some (Nat.gcd a b) := by
  intro fuel
  induction fuel with
  | zero => intro a b hb hle; omega
  | succ k ih =>
    intro a b hb hle
    unfold gcdAux
    rw [if_neg (by omega)]
    show (if a % b = 0 then some b else gcdAux k b (a % b)) = some (Nat.gcd a b)
    by_cases hc : a % b = 0
    · rw [if_pos hc, Nat.gcd_comm, Nat.gcd_rec, hc, Nat.gcd_zero_left]
    · have hlt : a % b < b := Nat.mod_lt _ hb
      rw [if_neg hc, ih b (a % b) (Nat.pos_of_ne_zero hc) (by omega)]
      rw [Nat.gcd_comm a b, Nat.gcd_rec b a, Nat.gcd_comm (a % b) b]

/-- `get_greatest_common_divisor` agrees with `Nat.gcd` under its
precondition `a ≥ b ≥ 1`. -/
theorem get_greatest_common_divisor_eq (a b : Nat) (hba : b ≤ a) (hb : 0 < b) :
    get_greatest_common_divisor a b = some (Nat.gcd a b) := by
  unfold get_greatest_common_divisor
  rw [if_pos hba]
  exact gcdAux_eq b a b hb le_rfl

/-- For positive arguments, `get_lowest_common_denom` returns `Nat.lcm`. -/
theorem get_lowest_common_denom_eq (a b : Nat) (ha : 0 < a) (hb : 0 < b) :
    get_lowest_common_denom a b = some (Nat.lcm a b) := by
  unfold get_lowest_common_denom
  by_cases h : b ≤ a
  · rw [if_pos h, get_greatest_common_divisor_eq a b h hb]
    rfl
  · rw [if_neg h, get_greatest_common_divisor_eq b a (by omega) ha]
    simp only [Option.map_some']
    rw [Nat.gcd_comm b a]
    rfl

/-- C6 (confirmed): for all positive `a`, `b`, `get_lowest_common_denom a b`
returns `Nat.lcm a b`; the result times `gcd a b` equals `a * b` in exact
integer arithmetic, and the result is a multiple of both inputs. -/
theorem C6_lcd_times_gcd (a b : Nat) (ha : 0 < a) (hb : 0 < b) :
    get_lowest_common_denom a b = some (Nat.lcm a b) ∧
    Nat.lcm a b * Nat.gcd a b = a * b ∧
    Nat.lcm a b % a = 0 ∧
    Nat.lcm a b % b = 0 := by
  refine ⟨get_lowest_common_denom_eq a b ha hb, ?_, ?_, ?_⟩
  · rw [Nat.mul_comm]; exact Nat.gcd_mul_lcm a b
  · exact Nat.mod_eq_zero_of_dvd (Nat.dvd_lcm_left a b)
  · exact Nat.mod_eq_zero_of_dvd (Nat.dvd_lcm_right a b)

/-- C6 witness at `a = 6`, `b = 4`. -/
theorem C6_lcd_times_gcd_witness :
    (0 : Nat) < 6 ∧ (0 : Nat) < 4 ∧
    (get_lowest_common_denom 6 4 = some (Nat.lcm 6 4) ∧
     Nat.lcm 6 4 * Nat.gcd 6 4 = 6 * 4 ∧
     Nat.lcm 6 4 % 6 = 0 ∧
     Nat.lcm 6 4 % 4 = 0) :=
  ⟨by decide, by decide, C6_lcd_times_gcd 6 4 (by decide) (by decide)⟩

/-- C10 (confirmed): under the precondition `a ≥ b ≥ 1` the Euclidean loop of
`get_greatest_common_divisor` terminates and returns `gcd a b`; with second
argument `0` the first `a % b` is a division by zero (modelled as `none`),
and `get_lowest_common_denom` inherits the failure whenever either argument
is zero, so both of its arguments must be positive. -/
theorem C10_gcd_preconditions (a b : Nat) (hba : b ≤ a) (hb : 0 < b) :
    get_greatest_common_divisor a b = some (Nat.gcd a b) ∧
    get_greatest_common_divisor a 0 = none ∧
    get_lowest_common_denom a 0 = none ∧
    get_lowest_common_denom 0 b = none := by
  have h1 : ∀ c : Nat, get_greatest_common_divisor c 0 = none := by
    intro c
    unfold get_greatest_common_divisor
    rw [if_pos (Nat.zero_le c)]
    rfl
  refine ⟨get_greatest_common_divisor_eq a b hba hb, h1 a, ?_, ?_⟩
  · unfold get_lowest_common_denom
    rw [if_pos (Nat.zero_le a), h1 a]
    rfl
  · unfold get_lowest_common_denom
    rw [if_neg (by omega), h1 b]
    rfl

/-- C10 witness at `a = 6`, `b = 4`. -/
theorem C10_gcd_preconditions_witness :
    (4 : Nat) ≤ 6 ∧ (0 : Nat) < 4 ∧
    (get_greatest_common_divisor 6 4 = some (Nat.gcd 6 4) ∧
     get_greatest_common_divisor 6 0 = none ∧
     get_lowest_common_denom 6 0 = none ∧
     get_lowest_common_denom 0 4 = none) :=
  ⟨by decide, by decide, C10_gcd_preconditions 6 4 (by decide) (by decide)⟩

end WgpuCore

namespace WgpuCore

/-! ## Case analysis of `queue_write_buffer` (claims C1, C2, C4) -/

/-- The state a failing `queue_write_buffer` leaves behind before the
`life_guard.use_at` call: staging allocated, pending command buffer taken,
tracker transitioned to `COPY_DST`. -/
def qwbStateAfterTracker (st : DeviceState) : DeviceState :=
  { st with
    stagingAllocated := st.stagingAllocated + 1
    pendingCommandBuffer := none
    trackerUse := BufferUseState.copyDst }

/-- The state a failing `queue_write_buffer` leaves behind after
`life_guard.use_at(active_submission_index + 1)` has also run. -/
def qwbStateAfterUseAt (st : DeviceState) : DeviceState :=
  { qwbStateAfterTracker st with dstLastUse := st.activeSubmissionIndex + 1 }

theorem qwb_eq_missing (st : DeviceState) (buf : Buffer) (buffer_offset : Nat)
    (data : List Nat) (hdata : data.length ≠ 0) (h1 : buf.usageCopyDst = false) :
    queue_write_buffer st buf buffer_offset data =
      (Except.error TransferError.MissingCopyDstUsageFlag, qwbStateAfterTracker st) := by
  dsimp only [queue_write_buffer]
  rw [if_neg hdata, if_pos h1]
  rfl

theorem qwb_eq_unaligned_size (st : DeviceState) (buf : Buffer) (buffer_offset : Nat)
    (data : List Nat) (hdata : data.length ≠ 0) (h1 : ¬ buf.usageCopyDst = false)
    (h2 : data.length % COPY_BUFFER_ALIGNMENT ≠ 0) :
    queue_write_buffer st buf buffer_offset data =
      (Except.error (TransferError.UnalignedCopySize data.length), qwbStateAfterUseAt st) := by
  dsimp only [queue_write_buffer]
  rw [if_neg hdata, if_neg h1, if_pos h2]
  rfl

theorem qwb_eq_unaligned_offset (st : DeviceState) (buf : Buffer) (buffer_offset : Nat)
    (data : List Nat) (hdata : data.length ≠ 0) (h1 : ¬ buf.usageCopyDst = false)
    (h2 : data.length % COPY_BUFFER_ALIGNMENT = 0)
    (h3 : buffer_offset % COPY_BUFFER_ALIGNMENT ≠ 0) :
    queue_write_buffer st buf buffer_offset data =
      (Except.error (TransferError.UnalignedBufferOffset buffer_offset),
       qwbStateAfterUseAt st) := by
  dsimp only [queue_write_buffer]
  rw [if_neg hdata, if_neg h1, if_neg (not_not_intro h2), if_pos h3]
  rfl

theorem qwb_eq_overrun (st : DeviceState) (buf : Buffer) (buffer_offset : Nat)
    (data : List Nat) (hdata : data.length ≠ 0) (h1 : ¬ buf.usageCopyDst = false)
    (h2 : data.length % COPY_BUFFER_ALIGNMENT = 0)
    (h3 : buffer_offset % COPY_BUFFER_ALIGNMENT = 0)
    (h4 : buf.size < buffer_offset + data.length) :
    queue_write_buffer st buf buffer_offset data =
      (Except.error
        (TransferError.BufferOverrun buffer_offset (buffer_offset + data.length) buf.size),
       qwbStateAfterUseAt st) := by
  dsimp only [queue_write_buffer]
  rw [if_neg hdata, if_neg h1, if_neg (not_not_intro h2), if_neg (not_not_intro h3), if_pos h4]
  rfl

theorem qwb_eq_ok (st : DeviceState) (buf : Buffer) (buffer_offset : Nat)
    (data : List Nat) (hdata : data.length ≠ 0) (h1 : ¬ buf.usageCopyDst = false)
    (h2 : data.length % COPY_BUFFER_ALIGNMENT = 0)
    (h3 : buffer_offset % COPY_BUFFER_ALIGNMENT = 0)
    (h4 : ¬ buf.size < buffer_offset + data.length) :
    queue_write_buffer st buf buffer_offset data =
      (Except.ok (),
       { qwbStateAfterUseAt st with
         pendingCommandBuffer := some (st.pendingCommandBuffer.getD 0 + 2)
         tempBuffers := st.tempBuffers + 1 }) := by
  dsimp only [queue_write_buffer]
  rw [if_neg hdata, if_neg h1, if_neg (not_not_intro h2), if_neg (not_not_intro h3), if_neg h4]
  rfl

/-- C1 (amended): when `queue_write_buffer` on a non-empty payload returns any
of its `TransferError`s, the failure is detected only after mutation has
begun: a staging buffer has already been allocated, the open pending-writes
command buffer has been taken (and is dropped with the staging buffer), and
the tracker entry for the destination has already been replaced with
`COPY_DST`; for the alignment and overrun errors the destination's last-use
submission index has also already been advanced to
`active_submission_index + 1`.  Only the `pending_writes.temp_buffers` list
and the active submission index are left unchanged, and the staging buffer is
never consumed into pending writes. -/
theorem C1_failed_write_mutates_state (st : DeviceState) (buf : Buffer)
    (buffer_offset : Nat) (data : List Nat) (e : TransferError)
    (hdata : data.length ≠ 0)
    (herr : (queue_write_buffer st buf buffer_offset data).1 = Except.error e) :
    (queue_write_buffer st buf buffer_offset data).2.tempBuffers = st.tempBuffers ∧
    (queue_write_buffer st buf buffer_offset data).2.stagingAllocated =
      st.stagingAllocated + 1 ∧
    (queue_write_buffer st buf buffer_offset data).2.pendingCommandBuffer = none ∧
    (queue_write_buffer st buf buffer_offset data).2.trackerUse = BufferUseState.copyDst ∧
    (queue_write_buffer st buf buffer_offset data).2.activeSubmissionIndex =
      st.activeSubmissionIndex ∧
    (queue_write_buffer st buf buffer_offset data).2.dstLastUse =
      (if e = TransferError.MissingCopyDstUsageFlag then st.dstLastUse
       else st.activeSubmissionIndex + 1) := by
  by_cases h1 : buf.usageCopyDst = false
  · rw [qwb_eq_missing st buf buffer_offset data hdata h1] at herr ⊢
    simp only [Except.error.injEq] at herr
    subst herr
    simp [qwbStateAfterTracker]
  · by_cases h2 : data.length % COPY_BUFFER_ALIGNMENT = 0
    · by_cases h3 : buffer_offset % COPY_BUFFER_ALIGNMENT = 0
      · by_cases h4 : buf.size < buffer_offset + data.length
        · rw [qwb_eq_overrun st buf buffer_offset data hdata h1 h2 h3 h4] at herr ⊢
          simp only [Except.error.injEq] at herr
          subst herr
          simp [qwbStateAfterUseAt, qwbStateAfterTracker]
        · rw [qwb_eq_ok st buf buffer_offset data hdata h1 h2 h3 h4] at herr
          exact absurd herr (by simp)
      · rw [qwb_eq_unaligned_offset st buf buffer_offset data hdata h1 h2 h3] at herr ⊢
        simp only [Except.error.injEq] at herr
        subst herr
        simp [qwbStateAfterUseAt, qwbStateAfterTracker]
    · rw [qwb_eq_unaligned_size st buf buffer_offset data hdata h1 h2] at herr ⊢
      simp only [Except.error.injEq] at herr
      subst herr
      simp [qwbStateAfterUseAt, qwbStateAfterTracker]

end WgpuCore

namespace WgpuCore

/-- C1 witness: `write_buffer` at `offset = 3` on a valid 64-byte `COPY_DST`
buffer with a 4-byte payload fails with `UnalignedBufferOffset`, and the
theorem applies. -/
theorem C1_failed_write_mutates_state_witness :
    ([1, 2, 3, 4] : List Nat).length ≠ 0 ∧
    (queue_write_buffer devInit bufOk 3 [1, 2, 3, 4]).1 =
      Except.error (TransferError.UnalignedBufferOffset 3) ∧
    ((queue_write_buffer devInit bufOk 3 [1, 2, 3, 4]).2.tempBuffers = devInit.tempBuffers ∧
     (queue_write_buffer devInit bufOk 3 [1, 2, 3, 4]).2.stagingAllocated =
       devInit.stagingAllocated + 1 ∧
     (queue_write_buffer devInit bufOk 3 [1, 2, 3, 4]).2.pendingCommandBuffer = none ∧
     (queue_write_buffer devInit bufOk 3 [1, 2, 3, 4]).2.trackerUse = BufferUseState.copyDst ∧
     (queue_write_buffer devInit bufOk 3 [1, 2, 3, 4]).2.activeSubmissionIndex =
       devInit.activeSubmissionIndex ∧
     (queue_write_buffer devInit bufOk 3 [1, 2, 3, 4]).2.dstLastUse =
       (if TransferError.UnalignedBufferOffset 3 = TransferError.MissingCopyDstUsageFlag then
          devInit.dstLastUse
        else devInit.activeSubmissionIndex + 1)) :=
  ⟨by decide, by decide,
   C1_failed_write_mutates_state devInit bufOk 3 [1, 2, 3, 4]
     (TransferError.UnalignedBufferOffset 3) (by decide) (by decide)⟩

/-- C1 counterexample: the same misaligned call fails with
`UnalignedBufferOffset` but does NOT leave the device state untouched — a
staging buffer has been allocated and the destination's recorded last-use
submission index has been advanced from 0 to 1, refuting the claim that a
failed validation leaves all state exactly as it was. -/
theorem C1_counterexample :
    (queue_write_buffer devInit bufOk 3 [1, 2, 3, 4]).1 =
      Except.error (TransferError.UnalignedBufferOffset 3) ∧
    (queue_write_buffer devInit bufOk 3 [1, 2, 3, 4]).2 ≠ devInit ∧
    (queue_write_buffer devInit bufOk 3 [1, 2, 3, 4]).2.dstLastUse = 1 ∧
    devInit.dstLastUse = 0 ∧
    (queue_write_buffer devInit bufOk 3 [1, 2, 3, 4]).2.stagingAllocated = 1 ∧
    devInit.stagingAllocated = 0 ∧
    (queue_write_buffer devInit bufOk 3 [1, 2, 3, 4]).2.trackerUse = BufferUseState.copyDst ∧
    devInit.trackerUse = BufferUseState.empty := by
  decide

/-- C4 (amended): on a non-empty payload the checks of `queue_write_buffer`
run in a fixed order — `COPY_DST` usage flag first, then copy-size alignment,
then offset alignment, then overrun — and each error is returned exactly when
its own condition fails and every earlier check passed.  In particular a
misaligned write to a buffer lacking `COPY_DST` reports
`MissingCopyDstUsageFlag`, not an alignment error, so "fails with an
alignment error iff misaligned" does not hold unconditionally. -/
theorem C4_write_buffer_error_conditions (st : DeviceState) (buf : Buffer)
    (buffer_offset : Nat) (data : List Nat) (hdata : data.length ≠ 0) :
    ((queue_write_buffer st buf buffer_offset data).1 =
        Except.error TransferError.MissingCopyDstUsageFlag ↔
      buf.usageCopyDst = false) ∧
    ((queue_write_buffer st buf buffer_offset data).1 =
        Except.error (TransferError.UnalignedCopySize data.length) ↔
      (buf.usageCopyDst = true ∧ data.length % COPY_BUFFER_ALIGNMENT ≠ 0)) ∧
    ((queue_write_buffer st buf buffer_offset data).1 =
        Except.error (TransferError.UnalignedBufferOffset buffer_offset) ↔
      (buf.usageCopyDst = true ∧ data.length % COPY_BUFFER_ALIGNMENT = 0 ∧
       buffer_offset % COPY_BUFFER_ALIGNMENT ≠ 0)) ∧
    ((queue_write_buffer st buf buffer_offset data).1 =
        Except.error
          (TransferError.BufferOverrun buffer_offset (buffer_offset + data.length) buf.size) ↔
      (buf.usageCopyDst = true ∧ data.length % COPY_BUFFER_ALIGNMENT = 0 ∧
       buffer_offset % COPY_BUFFER_ALIGNMENT = 0 ∧
       buf.size < buffer_offset + data.length)) ∧
    ((queue_write_buffer st buf buffer_offset data).1 = Except.ok () ↔
      (buf.usageCopyDst = true ∧ data.length % COPY_BUFFER_ALIGNMENT = 0 ∧
       buffer_offset % COPY_BUFFER_ALIGNMENT = 0 ∧
       buffer_offset + data.length ≤ buf.size)) := by
  by_cases h1 : buf.usageCopyDst = false
  · rw [qwb_eq_missing st buf buffer_offset data hdata h1]
    simp [h1]
  · have h1' : buf.usageCopyDst = true := by
      revert h1; cases buf.usageCopyDst <;> simp
    by_cases h2 : data.length % COPY_BUFFER_ALIGNMENT = 0
    · by_cases h3 : buffer_offset % COPY_BUFFER_ALIGNMENT = 0
      · by_cases h4 : buf.size < buffer_offset + data.length
        · rw [qwb_eq_overrun st buf buffer_offset data hdata h1 h2 h3 h4]
          simp [h1', h2, h3, h4]
        · rw [qwb_eq_ok st buf buffer_offset data hdata h1 h2 h3 h4]
          simp [h1', h2, h3, h4]
          omega
      · rw [qwb_eq_unaligned_offset st buf buffer_offset data hdata h1 h2 h3]
        simp [h1', h2, h3]
    · rw [qwb_eq_unaligned_size st buf buffer_offset data hdata h1 h2]
      simp [h1', h2]

/-- C4 witness: an aligned, in-bounds 4-byte write at offset 4 to a 64-byte
`COPY_DST` buffer, for which the theorem applies. -/
theorem C4_write_buffer_error_conditions_witness :
    ([1, 2, 3, 4] : List Nat).length ≠ 0 ∧
    (queue_write_buffer devInit bufOk 4 [1, 2, 3, 4]).1 = Except.ok () ∧
    ((queue_write_buffer devInit bufOk 4 [1, 2, 3, 4]).1 = Except.ok () ↔
      (bufOk.usageCopyDst = true ∧ ([1, 2, 3, 4] : List Nat).length % COPY_BUFFER_ALIGNMENT = 0 ∧
       4 % COPY_BUFFER_ALIGNMENT = 0 ∧ 4 + ([1, 2, 3, 4] : List Nat).length ≤ bufOk.size)) :=
  ⟨by decide, by decide,
   (C4_write_buffer_error_conditions devInit bufOk 4 [1, 2, 3, 4] (by decide)).2.2.2.2⟩

/-- C4 counterexample: a write at misaligned `offset = 3` to a buffer lacking
`COPY_DST` fails with `MissingCopyDstUsageFlag` — not with
`UnalignedBufferOffset` — even though the offset is not a multiple of the
copy alignment, refuting the claimed "fails with an alignment error if and
only if offset or size is misaligned". -/
theorem C4_counterexample :
    (queue_write_buffer devInit bufNoCopyDst 3 [1, 2, 3, 4]).1 =
      Except.error TransferError.MissingCopyDstUsageFlag ∧
    (3 : Nat) % COPY_BUFFER_ALIGNMENT ≠ 0 ∧
    ([1, 2, 3, 4] : List Nat).length ≠ 0 ∧
    Except.error TransferError.MissingCopyDstUsageFlag ≠
      (Except.error (TransferError.UnalignedBufferOffset 3) : Except TransferError Unit) := by
  decide

/-- C2 (code_bug): a zero-length `queue_write_buffer` is a successful no-op,
and the zero-extent early return of `queue_write_texture` fires for
`width = 0` and `height = 0` — but NOT for `depth = 0`, because the source
tests `size.width == 0` twice and never tests `size.depth`.  A
`depth = 0` write is therefore not a no-op: execution continues into
validation and staging, where `size.depth - 1` underflows. -/
theorem C2_zero_write_evaluation :
    (queue_write_buffer devInit bufOk 0 []).1 = Except.ok () ∧
    (queue_write_buffer devInit bufOk 0 []).2 = devInit ∧
    write_texture_size_zero_check (Extent3d.mk 0 7 7) = true ∧
    write_texture_size_zero_check (Extent3d.mk 7 0 7) = true ∧
    write_texture_size_zero_check (Extent3d.mk 1 1 0) = false := by
  decide

end WgpuCore

namespace WgpuCore

/-! ## Submission assembly (`Global::queue_submit`, claim C7) -/

/-- A recorded `CommandBuffer`, reduced to its list of native command buffers
(`cmdbuf.raw`); native command buffers are numbered. -/
structure CmdBuf where
  raw : List Nat
deriving DecidableEq

/-- The per-command-buffer stitching step of `queue_submit` (`queue.rs` lines
548-567): for each submitted command buffer, in caller order, a `transit`
command buffer is freshly allocated, the barriers are recorded into it and it
is inserted at position 0 of the command buffer's native list
(`cmdbuf.raw.insert(0, transit)`).  `alloc` numbers freshly allocated native
command buffers. -/
def stitch_all (alloc : Nat) : List CmdBuf → List CmdBuf × Nat
  | [] => ([], alloc)
  | cb :: rest =>
    let transit := alloc
    let cb' : CmdBuf := { raw := transit :: cb.raw }
    let r := stitch_all (alloc + 1) rest
    (cb' :: r.1, r.2)

/-- What reaches the physical queue: the flat list of native command buffers
and the fence attached to the submission. -/
structure Submission where
  commandBuffers : List Nat
  fence : Nat
deriving DecidableEq

/-- Device state for `queue_submit`: the active submission index, the open
pending-writes command buffer, and counters numbering the fences and native
command buffers created so far (a fresh object receives the current counter
value). -/
structure SubmitDeviceState where
  activeSubmissionIndex : Nat
  pendingCommandBuffer : Option Nat
  fenceCounter : Nat
  allocCounter : Nat
deriving DecidableEq

/-- The submission-assembly portion of `Global::queue_submit` (`queue.rs`
lines 420-594), for already resolved command buffers: take and finish the
pending-writes command buffer, bump `active_submission_index`, stitch each
submitted command buffer, create a fence (`device.raw.create_fence(false)`),
and hand the queue
`pending_write_command_buffer.into_iter().chain(command_buffer_ids.flat_map(raw))`
with `Some(&fence)` attached (`queue.rs` lines 573-592). -/
def queue_submit (st : SubmitDeviceState) (cmdbufs : List CmdBuf) :
    Submission × SubmitDeviceState :=
  let pending := st.pendingCommandBuffer
  let submit_index := st.activeSubmissionIndex + 1
  let stitched := stitch_all st.allocCounter cmdbufs
  let fence := st.fenceCounter
  ({ commandBuffers := pending.toList ++ (stitched.1.map CmdBuf.raw).flatten
     fence := fence },
   { activeSubmissionIndex := submit_index
     pendingCommandBuffer := none
     fenceCounter := st.fenceCounter + 1
     allocCounter := stitched.2 })

/-- Stitching preserves the caller's command buffers and their order: dropping
the prepended transit buffer from each stitched entry recovers exactly the
caller's list. -/
theorem stitch_all_preserves_order (cmdbufs : List CmdBuf) : ∀ alloc : Nat,
    ((stitch_all alloc cmdbufs).1.map fun cb => cb.raw.drop 1) = cmdbufs.map CmdBuf.raw := by
  induction cmdbufs with
  | nil => intro alloc; rfl
  | cons cb rest ih =>
    intro alloc
    simp only [stitch_all, List.map_cons, List.drop_succ_cons, List.drop_zero, ih (alloc + 1)]

/-- C7 (confirmed): the command buffers handed to the physical queue are the
flushed pending-writes command buffer first (when one exists), followed by
the stitched submitted command buffers in exactly the caller's order (each
contributing its transit buffer and then its own native buffers), and the
attached fence is the freshly created one — its number is the current fence
counter, which the call then advances. -/
theorem C7_submission_order_and_fence (st : SubmitDeviceState) (cmdbufs : List CmdBuf) :
    (queue_submit st cmdbufs).1.commandBuffers =
      st.pendingCommandBuffer.toList ++
        ((stitch_all st.allocCounter cmdbufs).1.map CmdBuf.raw).flatten ∧
    ((stitch_all st.allocCounter cmdbufs).1.map fun cb => cb.raw.drop 1) =
      cmdbufs.map CmdBuf.raw ∧
    (stitch_all st.allocCounter cmdbufs).1.length = cmdbufs.length ∧
    (queue_submit st cmdbufs).1.fence = st.fenceCounter ∧
    (queue_submit st cmdbufs).2.fenceCounter = st.fenceCounter + 1 ∧
    (queue_submit st cmdbufs).2.activeSubmissionIndex = st.activeSubmissionIndex + 1 := by
  refine ⟨rfl, stitch_all_preserves_order cmdbufs st.allocCounter, ?_, rfl, rfl, rfl⟩
  have h := stitch_all_preserves_order cmdbufs st.allocCounter
  have := congrArg List.length h
  simpa using this

/-! ## `RefCount` release (claim C8) -/

/-- A single atomic operation on the shared counter of a `RefCount`
(`wgpu-core/src/lib.rs` lines 88-104): `clone` is the `fetch_add(1, AcqRel)`
of `Clone::clone`; `drop` is the `fetch_sub(1, AcqRel)` of
`rich_drop_inner`, which deallocates the backing `Box` exactly when the value
read was 1.  Because every operation is one atomic read-modify-write on a
single location, an arbitrary interleaving of threads is exactly an arbitrary
sequence of these events. -/
inductive RCEvent
  | clone
  | drop
deriving DecidableEq

/-- A trace is valid when every event is performed through a live handle:
the number of live handles equals the counter value, starting from 1 for the
initial `RefCount`. -/
def rcValid : Nat → List RCEvent → Bool
  | _, [] => true
  | 0, _ :: _ => false
  | n + 1, RCEvent.clone :: es => rcValid (n + 2) es
  | n + 1, RCEvent.drop :: es => rcValid n es

/-- Run a trace from counter value `n`; returns the final counter value and
the number of times the backing allocation was deallocated (a `drop` whose
`fetch_sub` read 1). -/
def rcRun : Nat → List RCEvent → Nat × Nat
  | n, [] => (n, 0)
  | n, RCEvent.clone :: es => rcRun (n + 1) es
  | n, RCEvent.drop :: es =>
    let p := rcRun (n - 1) es
    (p.1, if n = 1 then p.2 + 1 else p.2)

/-- A valid trace cannot continue once no handle is live. -/
theorem rcValid_zero (es : List RCEvent) (h : rcValid 0 es = true) : es = [] := by
  cases es with
  | nil => rfl
  | cons e es => exact absurd h (by simp [rcValid])

/-- Along any valid trace the allocation is deallocated exactly once if the
final count is zero, and never otherwise. -/
theorem rcRun_free_count : ∀ (es : List RCEvent) (n : Nat), 0 < n → rcValid n es = true →
    (rcRun n es).2 = (if (rcRun n es).1 = 0 then 1 else 0) := by
  intro es
  induction es with
  | nil =>
    intro n hn _
    simp only [rcRun]
    rw [if_neg (by omega)]
  | cons e es ih =>
    intro n hn hv
    cases e with
    | clone =>
      obtain ⟨m, rfl⟩ : ∃ m, n = m + 1 := ⟨n - 1, by omega⟩
      simp only [rcRun]
      exact ih (m + 2) (by omega) (by simpa [rcValid] using hv)
    | drop =>
      obtain ⟨m, rfl⟩ : ∃ m, n = m + 1 := ⟨n - 1, by omega⟩
      have hv' : rcValid m es = true := by simpa [rcValid] using hv
      by_cases hm : m = 0
      · subst hm
        have hes : es = [] := rcValid_zero es hv'
        subst hes
        simp [rcRun]
      · simp only [rcRun]
        have hrec := ih m (by omega) hv'
        simp only [Nat.add_sub_cancel]
        rw [if_neg (by omega : ¬ m + 1 = 1)]
        exact hrec

/-- C8 (confirmed): over every valid interleaving of clone/drop events —
every sequentialization of the atomic read-modify-writes performed by
arbitrarily many threads — the backing allocation is released exactly once,
by the unique drop that observes the counter transition to zero (so only
when no clone is live any more: the release implies the final live count is
zero, and a valid trace cannot contain any event after that). -/
theorem C8_refcount_release_exactly_once (es : List RCEvent)
    (h : rcValid 1 es = true) :
    ((rcRun 1 es).2 = 1 ↔ (rcRun 1 es).1 = 0) ∧ (rcRun 1 es).2 ≤ 1 := by
  have hmain := rcRun_free_count es 1 (by omega) h
  by_cases hz : (rcRun 1 es).1 = 0
  · rw [if_pos hz] at hmain
    exact ⟨⟨fun _ => hz, fun _ => hmain⟩, by omega⟩
  · rw [if_neg hz] at hmain
    constructor
    · constructor
      · intro h1; omega
      · intro h0; exact absurd h0 hz
    · omega

/-- C8 witness: the trace clone–drop–drop (two handles, both dropped) is
valid, ends with no live handle, and deallocates exactly once. -/
theorem C8_refcount_release_exactly_once_witness :
    rcValid 1 [RCEvent.clone, RCEvent.drop, RCEvent.drop] = true ∧
    (((rcRun 1 [RCEvent.clone, RCEvent.drop, RCEvent.drop]).2 = 1 ↔
      (rcRun 1 [RCEvent.clone, RCEvent.drop, RCEvent.drop]).1 = 0) ∧
     (rcRun 1 [RCEvent.clone, RCEvent.drop, RCEvent.drop]).2 ≤ 1) :=
  ⟨by decide,
   C8_refcount_release_exactly_once [RCEvent.clone, RCEvent.drop, RCEvent.drop] (by decide)⟩

end WgpuCore

namespace WgpuCore

/-! ## The texture write staging copy (`Global::queue_write_texture`, claim C5) -/

/-- The inputs of the staging-copy section of `queue_write_texture`
(`queue.rs` lines 302-384): the format's block size and bytes per block, the
copy extent, the caller's `wgt::TextureDataLayout`, and the device's
`optimal_buffer_copy_pitch_alignment`. -/
structure TextureCopy where
  blockWidth : Nat
  blockHeight : Nat
  bytesPerBlock : Nat
  width : Nat
  height : Nat
  depth : Nat
  bytesPerRow : Nat
  rowsPerImage : Nat
  optimalPitchAlign : Nat
deriving DecidableEq

/-- `width_blocks = size.width / block_width` (line 316). -/
def widthBlocks (t : TextureCopy) : Nat := t.width / t.blockWidth

/-- `height_blocks = size.height / block_width` (line 317; the source divides
by `block_width`, not `block_height`). -/
def heightBlocks (t : TextureCopy) : Nat := t.height / t.blockWidth

/-- `block_rows_per_image = data_layout.rows_per_image / block_height`
(line 320). -/
def blockRowsPerImage (t : TextureCopy) : Nat := t.rowsPerImage / t.blockHeight

/-- `bytes_per_row_alignment = get_lowest_common_denom(optimal_pitch_alignment,
bytes_per_block)` (lines 322-325). -/
def bytes_per_row_alignment (t : TextureCopy) : Option Nat :=
  get_lowest_common_denom t.optimalPitchAlign t.bytesPerBlock

/-- `stage_bytes_per_row = align_to(bytes_per_block * width_blocks,
bytes_per_row_alignment)` (line 326). -/
def stage_bytes_per_row (t : TextureCopy) : Option Nat :=
  (bytes_per_row_alignment t).map (align_to (t.bytesPerBlock * widthBlocks t))

/-- `block_rows_in_copy = (size.depth - 1) * block_rows_per_image +
height_blocks` (line 328). -/
def blockRowsInCopy (t : TextureCopy) : Nat :=
  (t.depth - 1) * blockRowsPerImage t + heightBlocks t

/-- The mapped staging memory: byte address to written byte, `none` where
nothing has been written yet. -/
def Mem : Type := Nat → Option Nat

/-- Freshly mapped staging memory with no byte written. -/
def emptyMem : Mem := fun _ => none

/-- Write a list of bytes into staging memory starting at `off`
(a `copy_from_slice` into `mapping.slice[off..off + bytes.length]`). -/
def writeBytes : Mem → Nat → List Nat → Mem
  | m, _, [] => m
  | m, off, b :: bs => writeBytes (fun i => if i = off then some b else m i) (off + 1) bs

/-- The inner `for row in 0..height_blocks` loop of the slow path (lines
374-381): row `row` takes the source slice
`&data[data_offset .. data_offset + copy_bytes_per_row]` — a run-time panic
(modelled as `none`) when that slice reaches past the end of `data`, which the
source's validation does not rule out — and copies its `cb` bytes to staging
offset `(rows_offset + row) * stage_bytes_per_row` (the destination slice has
the same length `cb`, so `copy_from_slice` itself cannot fail there).
`copyRows … n` has performed the iterations `row = 0, …, n - 1`. -/
def copyRows (data : List Nat) (bpr sbpr cb rows_offset : Nat) (m : Mem) : Nat → Option Mem
  | 0 => some m
  | n + 1 =>
    match copyRows data bpr sbpr cb rows_offset m n with
    | none => none
    | some m' =>
      if (rows_offset + n) * bpr + cb ≤ data.length then
        some (writeBytes m' ((rows_offset + n) * sbpr)
          ((data.drop ((rows_offset + n) * bpr)).take cb))
      else none

/-- The outer `for layer in 0..size.depth` loop of the slow path (lines
372-382), with `rows_offset = layer * block_rows_per_image`; a panic in any
row aborts the whole copy. -/
def copyLayers (data : List Nat) (bpr sbpr cb brpi hb : Nat) : Nat → Option Mem
  | 0 => some emptyMem
  | d + 1 =>
    match copyLayers data bpr sbpr cb brpi hb d with
    | none => none
    | some m => copyRows data bpr sbpr cb (d * brpi) m hb

/-- The slow path of the staging copy (lines 368-383): row-by-row copy with
`copy_bytes_per_row = min stage_bytes_per_row data_layout.bytes_per_row`;
`none` is the panicking execution (an out-of-bounds source row slice). -/
def stagedSlow (t : TextureCopy) (data : List Nat) (sbpr : Nat) : Option Mem :=
  copyLayers data t.bytesPerRow sbpr (min sbpr t.bytesPerRow)
    (blockRowsPerImage t) (heightBlocks t) t.depth

/-- The fast path of the staging copy (lines 365-367):
`mapping.slice[..stage_size].copy_from_slice(data)` in one pass, where
`stage_size = stage_bytes_per_row * block_rows_in_copy`.  `copy_from_slice`
panics (modelled as `none`) unless the two slices have equal length, i.e.
unless `data.length = stage_size` — which the source's validation, a lower
bound only, does not guarantee. -/
def stagedFast (t : TextureCopy) (data : List Nat) (sbpr : Nat) : Option Mem :=
  if data.length = sbpr * blockRowsInCopy t then some (writeBytes emptyMem 0 data)
  else none

/-- The byte a (possibly panicking) staging copy leaves at address `p`:
`none` when the copy panicked, in which case nothing was staged at all. -/
def stagedAt (o : Option Mem) (p : Nat) : Option Nat :=
  match o with
  | none => none
  | some m => m p

/-- The staging address of byte `j` of block row `row` of layer `layer`:
`(layer * block_rows_per_image + row) * stage_bytes_per_row + j`. -/
def stagePos (sbpr brpi layer row j : Nat) : Nat := (layer * brpi + row) * sbpr + j

/-- The reference row-by-row copy, following the spec's words: the byte the
staging buffer must hold for block-row coordinate `(layer, row)` at byte `j`
of the natural row is the byte at the same coordinate of the caller's linear
layout with row stride `bytes_per_row` and image stride
`block_rows_per_image` rows. -/
def referenceCopyByte (data : List Nat) (bpr brpi layer row j : Nat) : Option Nat :=
  data[(layer * brpi + row) * bpr + j]?

end WgpuCore

namespace WgpuCore

/-- Pointwise description of `writeBytes`: inside the written window the byte
comes from the list, outside it the memory is unchanged. -/
theorem writeBytes_apply (bs : List Nat) : ∀ (m : Mem) (off i : Nat),
    writeBytes m off bs i =
      if off ≤ i ∧ i < off + bs.length then bs[i - off]? else m i := by
  induction bs with
  | nil =>
    intro m off i
    simp only [writeBytes, List.length_nil, Nat.add_zero]
    rw [if_neg (by omega)]
  | cons b bs ih =>
    intro m off i
    simp only [writeBytes, List.length_cons]
    rw [ih]
    by_cases h0 : i = off
    · subst h0
      rw [if_neg (by omega), if_pos (by omega)]
      simp
    · by_cases h1 : off + 1 ≤ i ∧ i < off + 1 + bs.length
      · rw [if_pos h1, if_pos (by omega)]
        have hio : i - off = (i - (off + 1)) + 1 := by omega
        rw [hio, List.getElem?_cons_succ]
      · rw [if_neg h1, if_neg (by omega), if_neg (by omega)]

/-- When the row loop completes without panicking, it has not touched any
address below `rows_offset * sbpr`. -/
theorem copyRows_some_apply_lt (data : List Nat) (bpr sbpr cb rows_offset : Nat) (m : Mem) :
    ∀ (n : Nat) (mem : Mem), copyRows data bpr sbpr cb rows_offset m n = some mem →
      ∀ p : Nat, p < rows_offset * sbpr → mem p = m p := by
  intro n
  induction n with
  | zero =>
    intro mem hmem p _
    simp only [copyRows, Option.some.injEq] at hmem
    rw [← hmem]
  | succ k ih =>
    intro mem hmem p hp
    cases hrec : copyRows data bpr sbpr cb rows_offset m k with
    | none =>
      simp only [copyRows, hrec] at hmem
      exact Option.noConfusion hmem
    | some m' =>
      simp only [copyRows, hrec] at hmem
      by_cases hg : (rows_offset + k) * bpr + cb ≤ data.length
      · rw [if_pos hg] at hmem
        simp only [Option.some.injEq] at hmem
        subst hmem
        rw [writeBytes_apply]
        have hmul : rows_offset * sbpr ≤ (rows_offset + k) * sbpr :=
          Nat.mul_le_mul_right sbpr (Nat.le_add_right rows_offset k)
        rw [if_neg (by omega)]
        exact ih m' hrec p hp
      · rw [if_neg hg] at hmem
        exact absurd hmem (by simp)

/-- When the row loop completes without panicking after `n` iterations, the
byte at position `j < cb` of row `r < n` equals the source byte at the
caller's layout offset (the loop's own bounds check guarantees the source
slice was complete). -/
theorem copyRows_some_apply_hit (data : List Nat) (bpr sbpr cb rows_offset : Nat) (m : Mem)
    (hcb : cb ≤ sbpr) :
    ∀ (n : Nat) (mem : Mem), copyRows data bpr sbpr cb rows_offset m n = some mem →
      ∀ r j : Nat, r < n → j < cb →
        mem ((rows_offset + r) * sbpr + j) = data[(rows_offset + r) * bpr + j]? := by
  intro n
  induction n with
  | zero => intro mem _ r j hr _; omega
  | succ k ih =>
    intro mem hmem r j hr hj
    cases hrec : copyRows data bpr sbpr cb rows_offset m k with
    | none =>
      simp only [copyRows, hrec] at hmem
      exact Option.noConfusion hmem
    | some m' =>
      simp only [copyRows, hrec] at hmem
      by_cases hg : (rows_offset + k) * bpr + cb ≤ data.length
      · rw [if_pos hg] at hmem
        simp only [Option.some.injEq] at hmem
        subst hmem
        rw [writeBytes_apply]
        by_cases hrk : r = k
        · subst hrk
          have hlen : ((data.drop ((rows_offset + r) * bpr)).take cb).length = cb := by
            rw [List.length_take, List.length_drop]
            omega
          rw [if_pos (by rw [hlen]; omega)]
          have hjo : (rows_offset + r) * sbpr + j - (rows_offset + r) * sbpr = j := by omega
          rw [hjo, List.getElem?_take, if_pos hj, List.getElem?_drop]
        · have h1 : ((rows_offset + r) + 1) * sbpr ≤ (rows_offset + k) * sbpr :=
            Nat.mul_le_mul_right sbpr (by omega)
          have h2 : (rows_offset + r) * sbpr + sbpr = ((rows_offset + r) + 1) * sbpr := by ring
          rw [if_neg (by omega)]
          exact ih m' hrec r j (by omega) hj
      · rw [if_neg hg] at hmem
        exact absurd hmem (by simp)

/-- When the layer loop completes without panicking after `d` iterations, the
staged byte at coordinate `(layer, row, j)` with `layer < d`, `row < hb`,
`j < cb` equals the source byte, provided rows fit inside an image
(`hb ≤ brpi`). -/
theorem copyLayers_some_apply (data : List Nat) (bpr sbpr cb brpi hb : Nat)
    (hcb : cb ≤ sbpr) (hhb : hb ≤ brpi) :
    ∀ (d : Nat) (mem : Mem), copyLayers data bpr sbpr cb brpi hb d = some mem →
      ∀ layer row j : Nat, layer < d → row < hb → j < cb →
        mem ((layer * brpi + row) * sbpr + j) = data[(layer * brpi + row) * bpr + j]? := by
  intro d
  induction d with
  | zero => intro mem _ layer row j hl _ _; omega
  | succ k ih =>
    intro mem hmem layer row j hl hrow hj
    cases hrec : copyLayers data bpr sbpr cb brpi hb k with
    | none =>
      simp only [copyLayers, hrec] at hmem
      exact Option.noConfusion hmem
    | some m =>
      simp only [copyLayers, hrec] at hmem
      by_cases hlk : layer = k
      · subst hlk
        exact copyRows_some_apply_hit data bpr sbpr cb (layer * brpi) m hcb hb mem hmem
          row j hrow hj
      · have hlt : layer < k := by omega
        have h1 : (layer * brpi + row) + 1 ≤ k * brpi := by
          have hb1 : layer * brpi + brpi = (layer + 1) * brpi := by ring
          have hb2 : (layer + 1) * brpi ≤ k * brpi :=
            Nat.mul_le_mul_right brpi (by omega)
          omega
        have h2 : ((layer * brpi + row) + 1) * sbpr ≤ (k * brpi) * sbpr :=
          Nat.mul_le_mul_right sbpr h1
        have h3 : (layer * brpi + row) * sbpr + sbpr = ((layer * brpi + row) + 1) * sbpr := by
          ring
        rw [copyRows_some_apply_lt data bpr sbpr cb (k * brpi) m hb mem hmem _ (by omega)]
        exact ih m hrec layer row j hlt hrow hj

end WgpuCore

namespace WgpuCore

/-- C5 (amended): whenever the staging copy of `queue_write_texture`
completes without panicking, the staged bytes are byte-identical to the
reference row-by-row copy at every payload byte — for every layer, block row
and byte `j` of the natural row, the slow path stages exactly the reference
byte, and, when the caller-supplied `bytes_per_row` equals the computed
staging pitch, so does the one-pass fast path.  The copy does not complete
for every valid layout: the fast path panics unless `data.length` equals the
staging size exactly, and the slow path panics when a row's
`min stage_bytes_per_row bytes_per_row` source bytes extend past the end of
the payload. -/
theorem C5_staging_copy_matches_reference (t : TextureCopy) (data : List Nat)
    (sbpr layer row j : Nat)
    (hs : stage_bytes_per_row t = some sbpr)
    (hnbs : t.bytesPerBlock * widthBlocks t ≤ sbpr)
    (hnbb : t.bytesPerBlock * widthBlocks t ≤ t.bytesPerRow)
    (hhb : heightBlocks t ≤ blockRowsPerImage t)
    (hlayer : layer < t.depth) (hrow : row < heightBlocks t)
    (hj : j < t.bytesPerBlock * widthBlocks t) :
    ((stagedSlow t data sbpr).isSome = true →
      stagedAt (stagedSlow t data sbpr) (stagePos sbpr (blockRowsPerImage t) layer row j) =
        referenceCopyByte data t.bytesPerRow (blockRowsPerImage t) layer row j) ∧
    (t.bytesPerRow = sbpr → (stagedFast t data sbpr).isSome = true →
      stagedAt (stagedFast t data sbpr) (stagePos sbpr (blockRowsPerImage t) layer row j) =
        referenceCopyByte data t.bytesPerRow (blockRowsPerImage t) layer row j) := by
  have hjcb : j < min sbpr t.bytesPerRow := lt_of_lt_of_le hj (le_min hnbs hnbb)
  constructor
  · intro hsome
    cases hmem : stagedSlow t data sbpr with
    | none => rw [hmem] at hsome; exact absurd hsome (by simp)
    | some mem =>
      simp only [stagedAt]
      dsimp only [stagePos, referenceCopyByte]
      exact copyLayers_some_apply data t.bytesPerRow sbpr (min sbpr t.bytesPerRow)
        (blockRowsPerImage t) (heightBlocks t) (min_le_left _ _) hhb
        t.depth mem hmem layer row j hlayer hrow hjcb
  · intro hbpr hsome
    cases hmem : stagedFast t data sbpr with
    | none => rw [hmem] at hsome; exact absurd hsome (by simp)
    | some mem =>
      have hsf := hmem
      unfold stagedFast at hsf
      by_cases hlen : data.length = sbpr * blockRowsInCopy t
      · rw [if_pos hlen] at hsf
        simp only [Option.some.injEq] at hsf
        simp only [stagedAt]
        dsimp only [stagePos, referenceCopyByte]
        rw [← hsf, writeBytes_apply]
        have hjs : j < sbpr := lt_of_lt_of_le hj hnbs
        have hAB : layer * blockRowsPerImage t + row + 1 ≤ blockRowsInCopy t := by
          dsimp only [blockRowsInCopy]
          have hmulL : layer * blockRowsPerImage t ≤ (t.depth - 1) * blockRowsPerImage t :=
            Nat.mul_le_mul_right (blockRowsPerImage t) (by omega)
          omega
        have hmulAB : (layer * blockRowsPerImage t + row + 1) * sbpr ≤
            blockRowsInCopy t * sbpr :=
          Nat.mul_le_mul_right sbpr hAB
        have hexp : (layer * blockRowsPerImage t + row) * sbpr + sbpr =
            (layer * blockRowsPerImage t + row + 1) * sbpr := by ring
        have hcomm : blockRowsInCopy t * sbpr = sbpr * blockRowsInCopy t := by ring
        have hpS : (layer * blockRowsPerImage t + row) * sbpr + j <
            sbpr * blockRowsInCopy t := by omega
        rw [if_pos (by omega), Nat.sub_zero, hbpr]
      · rw [if_neg hlen] at hsf
        exact absurd hsf (by simp)

/-- A 3x2x2 one-byte-block texture copy: block size 1x1, 1 byte per block,
`bytes_per_row = 4`, `rows_per_image = 2`, optimal pitch alignment 2.  The
computed staging pitch is `align_to(3, lcd(2,1)) = 4`, equal to the supplied
`bytes_per_row`, and the staging size is `4 * ((2-1)*2 + 2) = 16`. -/
def texCopyExample : TextureCopy :=
  { blockWidth := 1
    blockHeight := 1
    bytesPerBlock := 1
    width := 3
    height := 2
    depth := 2
    bytesPerRow := 4
    rowsPerImage := 2
    optimalPitchAlign := 2 }

/-- C5 witness: the example copy with the exactly-sized 16-byte payload, at
layer 1, block row 1, byte 2 — both paths complete and stage the reference
byte. -/
theorem C5_staging_copy_matches_reference_witness :
    stage_bytes_per_row texCopyExample = some 4 ∧
    texCopyExample.bytesPerBlock * widthBlocks texCopyExample ≤ 4 ∧
    texCopyExample.bytesPerBlock * widthBlocks texCopyExample ≤ texCopyExample.bytesPerRow ∧
    heightBlocks texCopyExample ≤ blockRowsPerImage texCopyExample ∧
    1 < texCopyExample.depth ∧
    1 < heightBlocks texCopyExample ∧
    2 < texCopyExample.bytesPerBlock * widthBlocks texCopyExample ∧
    (stagedSlow texCopyExample (List.range 16) 4).isSome = true ∧
    (stagedFast texCopyExample (List.range 16) 4).isSome = true ∧
    stagedAt (stagedSlow texCopyExample (List.range 16) 4)
        (stagePos 4 (blockRowsPerImage texCopyExample) 1 1 2) =
      referenceCopyByte (List.range 16) texCopyExample.bytesPerRow
        (blockRowsPerImage texCopyExample) 1 1 2 ∧
    stagedAt (stagedFast texCopyExample (List.range 16) 4)
        (stagePos 4 (blockRowsPerImage texCopyExample) 1 1 2) =
      referenceCopyByte (List.range 16) texCopyExample.bytesPerRow
        (blockRowsPerImage texCopyExample) 1 1 2 :=
  ⟨by decide, by decide, by decide, by decide, by decide, by decide, by decide,
   by decide, by decide,
   (C5_staging_copy_matches_reference texCopyExample (List.range 16) 4 1 1 2
      (by decide) (by decide) (by decide) (by decide) (by decide) (by decide)
      (by decide)).1 (by decide),
   (C5_staging_copy_matches_reference texCopyExample (List.range 16) 4 1 1 2
      (by decide) (by decide) (by decide) (by decide) (by decide) (by decide)
      (by decide)).2 (by decide) (by decide)⟩

/-- C5 counterexample: the minimal payload the declared layout requires — 15
bytes, covering every block row's natural 3 bytes at row stride 4 — on the
example copy, whose `bytes_per_row` equals the computed staging pitch 4 and
whose staging size is 16.  The claim says this valid-layout call stages
reference bytes via the fast path; instead `copy_from_slice` panics on the
length mismatch (15 ≠ 16), and the row-by-row slow path would also panic
because the last row's 4-byte slice runs past the 15-byte payload.  Nothing
is staged, while the reference copy is well defined (byte (1,1,2) is 14). -/
theorem C5_counterexample :
    stage_bytes_per_row texCopyExample = some 4 ∧
    texCopyExample.bytesPerRow = 4 ∧
    texCopyExample.bytesPerBlock * widthBlocks texCopyExample ≤ texCopyExample.bytesPerRow ∧
    heightBlocks texCopyExample ≤ blockRowsPerImage texCopyExample ∧
    ((texCopyExample.depth - 1) * blockRowsPerImage texCopyExample +
        (heightBlocks texCopyExample - 1)) * texCopyExample.bytesPerRow +
      texCopyExample.bytesPerBlock * widthBlocks texCopyExample = (List.range 15).length ∧
    (stagedFast texCopyExample (List.range 15) 4).isSome = false ∧
    (stagedSlow texCopyExample (List.range 15) 4).isSome = false ∧
    referenceCopyByte (List.range 15) texCopyExample.bytesPerRow
      (blockRowsPerImage texCopyExample) 1 1 2 = some 14 := by
  decide

end WgpuCore
